import Mathlib

/-!
Verification of the BaZi calendrical core (bazi-insights).

This file gives a shallow embedding, in Lean 4, of the calendrical and
astronomical core of the repository and proves (or refutes) the frozen
specification claims about it.

Conventions of the embedding:

* A JavaScript `Date` stores a millisecond timestamp; we model it by an
  `Int` millisecond value (the code base stores "Beijing wall time" in the
  UTC fields, and the environment is assumed TZ-free, so `getFullYear` and
  `getUTCFullYear` coincide with the calendar year of the stored value).
  Where a module only ever uses dates at day granularity (the lunisolar
  converter) we work with day numbers (days since 1970-01-01) instead.
* `Date.UTC` / field extraction follow the ECMAScript specification:
  `daysFromCivil` is ECMA `MakeDay` (with month overflow normalisation),
  `civilFromDays` inverts it (Gregorian calendar), and `jsUTCYear` models
  the ECMAScript quirk that years 0..99 passed to `Date.UTC` mean 1900+y.
* JavaScript `%` on integers truncates towards zero; it is modelled by
  `Int.tmod`.  `Math.floor(x / y)` on integer values is floor division,
  which for positive literal divisors is Lean's `Int` division `/`.
* Numbers that the source manipulates only with exact integer arithmetic
  are `Int`/`Nat`; modules whose arithmetic is floating point are modelled
  over `ℚ` (exact arithmetic) with the transcendental functions
  (`Math.sin`, `Math.cos`, `Math.PI`) taken as parameters, or over `ℝ`
  where a claim is about the values of the sine/cosine themselves.
* A JavaScript `throw` is modelled by returning `none` from an
  `Option`-valued function.
* An out-of-range JavaScript array read yields `undefined`; every such
  read in the lunisolar module flows into a `ToInt32` coercion (bitwise
  ops) or into a `Date` that a claim never observes, so it is modelled as
  the value `0` (comments at each site).
-/

/-! ## ECMAScript date primitives -/

/-- Gregorian leap-year test (ECMA `DaysInYear`). -/
def isLeapYear (y : Int) : Bool :=
  (y % 4 == 0 && y % 100 != 0) || y % 400 == 0

/-- Day number (days since 1970-01-01) of January 1 of year `y`
(ECMA `DayFromYear`). -/
def dayFromYear (y : Int) : Int :=
  365 * (y - 1970) + (y - 1969) / 4 - (y - 1901) / 100 + (y - 1601) / 400

/-- Days from January 1 to the start of 0-based month `mn` in a non-leap
year (ECMA day-within-year table). -/
def monthStartDay : Nat → Int
  | 0 => 0 | 1 => 31 | 2 => 59 | 3 => 90 | 4 => 120 | 5 => 151
  | 6 => 181 | 7 => 212 | 8 => 243 | 9 => 273 | 10 => 304 | 11 => 334
  | _ => 365

/-- Day number of the civil date `(y, m, d)` with 1-based month `m`
(ECMA `MakeDay`; `m` and `d` may overflow and are normalised exactly as
ECMAScript does). -/
def daysFromCivil (y m d : Int) : Int :=
  let t := m - 1
  let ym := y + t / 12
  let mn := (t % 12).toNat
  dayFromYear ym + monthStartDay mn
    + (if 2 ≤ mn ∧ isLeapYear ym then 1 else 0) + (d - 1)

/-- ECMAScript `Date.UTC` year quirk: integer years 0..99 denote 1900+y. -/
def jsUTCYear (y : Int) : Int :=
  if 0 ≤ y ∧ y ≤ 99 then 1900 + y else y

/-- Civil date `(year, month, day)` (1-based month) of a day number;
standard Gregorian conversion, inverse of `daysFromCivil` on valid
dates. -/
def civilFromDays (z0 : Int) : Int × Int × Int :=
  let z := z0 + 719468
  let era := z / 146097
  let doe := z % 146097
  let yoe := (doe - doe / 1460 + doe / 36524 - doe / 146096) / 365
  let y := yoe + era * 400
  let doy := doe - (365 * yoe + yoe / 4 - yoe / 100)
  let mp := (5 * doy + 2) / 153
  let d := doy - (153 * mp + 2) / 5 + 1
  let m := mp + (if mp < 10 then 3 else -9)
  (y + (if m ≤ 2 then 1 else 0), m, d)

/-- Millisecond timestamp built by `Date.UTC(year, monthIndex, day, h, min,
s, ms)` (0-based `monthIndex`, ECMA `MakeDate`∘`MakeTime`, including the
two-digit-year quirk). -/
def jsDateUTC (year monthIndex day h min s ms : Int) : Int :=
  daysFromCivil (jsUTCYear year) (monthIndex + 1) day * 86400000
    + h * 3600000 + min * 60000 + s * 1000 + ms

/-- Calendar year of a millisecond timestamp (`getUTCFullYear`, and also
`getFullYear` in the assumed TZ-free environment). -/
def jsGetFullYear (ms : Int) : Int :=
  (civilFromDays (ms / 86400000)).1

/-! ## Lunisolar calendar module (`lunarCalendar.ts`)

The module works with dates at day granularity only (every `Date` it
builds has zero time-of-day), so solar dates are embedded as day numbers;
`lunarToSolar` returns the day number of the civil date it would return as
a `Date`. -/

/-- Encoded lunar-year table for 1900..2100, copied bit-exactly from the
source (`LUNAR_INFO`). -/
def LUNAR_INFO : List Nat := [
  0x04bd8, 0x04ae0, 0x0a570, 0x054d5, 0x0d260, 0x0d950,
  0x16554, 0x056a0, 0x09ad0, 0x055d2, 0x04ae0, 0x0a5b6,
  0x0a4d0, 0x0d250, 0x1d255, 0x0b540, 0x0d6a0, 0x0ada2,
  0x095b0, 0x14977, 0x04970, 0x0a4b0, 0x0b4b5, 0x06a50,
  0x06d40, 0x1ab54, 0x02b60, 0x09570, 0x052f2, 0x04970,
  0x06566, 0x0d4a0, 0x0ea50, 0x16a95, 0x05ad0, 0x02b60,
  0x186e3, 0x092e0, 0x1c8d7, 0x0c950, 0x0d4a0, 0x1d8a6,
  0x0b550, 0x056a0, 0x1a5b4, 0x025d0, 0x092d0, 0x0d2b2,
  0x0a950, 0x0b557, 0x06ca0, 0x0b550, 0x15355, 0x04da0,
  0x0a5b0, 0x14573, 0x052b0, 0x0a9a8, 0x0e950, 0x06aa0,
  0x0aea6, 0x0ab50, 0x04b60, 0x0aae4, 0x0a570, 0x05260,
  0x0f263, 0x0d950, 0x05b57, 0x056a0, 0x096d0, 0x04dd5,
  0x04ad0, 0x0a4d0, 0x0d4d4, 0x0d250, 0x0d558, 0x0b540,
  0x0b6a0, 0x195a6, 0x095b0, 0x049b0, 0x0a974, 0x0a4b0,
  0x0b27a, 0x06a50, 0x06d40, 0x0af46, 0x0ab60, 0x09570,
  0x04af5, 0x04970, 0x064b0, 0x074a3, 0x0ea50, 0x06b58,
  0x05ac0, 0x0ab60, 0x096d5, 0x092e0, 0x0c960, 0x0d954,
  0x0d4a0, 0x0da50, 0x07552, 0x056a0, 0x0abb7, 0x025d0,
  0x092d0, 0x0cab5, 0x0a950, 0x0b4a0, 0x0baa4, 0x0ad50,
  0x055d9, 0x04ba0, 0x0a5b0, 0x15176, 0x052b0, 0x0a930,
  0x07954, 0x06aa0, 0x0ad50, 0x05b52, 0x04b60, 0x0a6e6,
  0x0a4e0, 0x0d260, 0x0ea65, 0x0d530, 0x05aa0, 0x076a3,
  0x096d0, 0x04afb, 0x04ad0, 0x0a4d0, 0x1d0b6, 0x0d250,
  0x0d520, 0x0dd45, 0x0b5a0, 0x056d0, 0x055b2, 0x049b0,
  0x0a577, 0x0a4b0, 0x0aa50, 0x1b255, 0x06d20, 0x0ada0,
  0x14b63, 0x09370, 0x049f8, 0x04970, 0x064b0, 0x168a6,
  0x0ea50, 0x06aa0, 0x1a6c4, 0x0aae0, 0x092e0, 0x0d2e3,
  0x0c960, 0x0d557, 0x0d4a0, 0x0da50, 0x05d55, 0x056a0,
  0x0a6d0, 0x055d4, 0x052d0, 0x0a9b8, 0x0a950, 0x0b4a0,
  0x0b6a6, 0x0ad50, 0x055a0, 0x0aba4, 0x0a5b0, 0x052b0,
  0x0b273, 0x06930, 0x07337, 0x06aa0, 0x0ad50, 0x14b55,
  0x04b60, 0x0a570, 0x054e4, 0x0d160, 0x0e968, 0x0d520,
  0x0daa0, 0x16aa6, 0x056d0, 0x04ae0, 0x0a9d4, 0x0a4d0,
  0x0d150, 0x0f252, 0x0d520]

/-- Spring-festival (lunar new-year) civil dates for 1900..2100, packed as
`month*100 + day`, copied from the source (`SPRING_FESTIVAL`). -/
def SPRING_FESTIVAL : List Nat := [
  131, 219, 208, 129, 216, 204, 125, 213, 202, 121,
  210, 130, 218, 206, 126, 214, 203, 123, 211, 201,
  220, 208, 128, 216, 205, 124, 213, 202, 123, 210,
  130, 217, 206, 126, 214, 204, 124, 211, 131, 219,
  208, 127, 215, 205, 125, 213, 202, 122, 210, 129,
  217, 206, 127, 214, 203, 124, 212, 131, 218, 208,
  128, 215, 205, 125, 213, 202, 121, 209, 130, 217,
  206, 127, 215, 203, 123, 211, 131, 218, 207, 128,
  216, 205, 125, 213, 202, 220, 209, 129, 217, 206,
  127, 215, 204, 123, 210, 131, 219, 207, 128, 216,
  205, 124, 212, 201, 122, 209, 129, 218, 207, 126,
  214, 203, 123, 210, 131, 219, 208, 128, 216, 205,
  125, 212, 201, 122, 210, 129, 217, 206, 126, 213,
  203, 123, 211, 131, 219, 208, 128, 215, 204, 124,
  212, 201, 122, 210, 130, 217, 206, 126, 214, 202,
  123, 211, 201, 119, 208, 128, 215, 204, 124, 212,
  202, 121, 210, 129, 217, 205, 126, 214, 203, 123,
  211, 131, 219, 208, 127, 215, 205, 124, 212, 202,
  121, 209, 129, 217, 206, 126, 214, 203, 124, 211,
  131, 218, 207, 127, 215, 204, 125, 212, 202, 121,
  209]

/-- Table read `LUNAR_INFO[year - 1900]`.  An out-of-range JavaScript read
yields `undefined`; every use site coerces the value with a bitwise
operation, and `ToInt32(undefined) = 0`, so the out-of-range case is
modelled by `0`. -/
def lunarInfoOf (year : Int) : Nat :=
  if 0 ≤ year - 1900 ∧ year - 1900 < 201 then
    LUNAR_INFO.getD (year - 1900).toNat 0
  else 0

/-- Leap month (1..12) of a lunar year, 0 when it has none
(`getLeapMonthInternal`). -/
def getLeapMonthInternal (year : Int) : Nat :=
  lunarInfoOf year &&& 0xf

/-- Number of days of the leap month of a lunar year, 0 when it has none
(`getLeapMonthDays`). -/
def getLeapMonthDays (year : Int) : Nat :=
  if getLeapMonthInternal year = 0 then 0
  else if lunarInfoOf year &&& 0x10 ≠ 0 then 30 else 29

/-- Number of days of ordinary lunar month `month` (1..12) of a lunar year
(`getMonthDays`). -/
def getMonthDays (year : Int) (month : Nat) : Nat :=
  if lunarInfoOf year &&& (0x10000 >>> (month - 1)) ≠ 0 then 30 else 29

/-- Table read `SPRING_FESTIVAL[year - 1900]`; out of range modelled by
`0` (JavaScript: `undefined`, which the claims never observe — see the
comment on `lunarInfoOf`). -/
def springFestivalOf (year : Int) : Nat :=
  if 0 ≤ year - 1900 ∧ year - 1900 < 201 then
    SPRING_FESTIVAL.getD (year - 1900).toNat 0
  else 0

/-- Day number of the spring festival of a lunar year
(`getSpringFestivalDate`, which builds `Date.UTC(year, month-1, day)` from
the packed code). -/
def getSpringFestivalDate (year : Int) : Int :=
  let code : Int := springFestivalOf year
  let month := code / 100
  let day := code % 100
  daysFromCivil (jsUTCYear year) month day

/-- Difference in days between two day-granular dates (`daysBetween`; at
day granularity the source's re-extraction of the date fields followed by
a floor division is the plain difference of the day numbers). -/
def daysBetween (d1 d2 : Int) : Int :=
  d2 - d1

/-- Civil (solar) date as read off a `Date` by `solarToLunar`:
`getUTCFullYear`, `getUTCMonth() + 1`, `getUTCDate`. -/
structure SolarDate where
  year : Int
  month : Int
  day : Int
deriving DecidableEq, Repr

/-- Lunar date record (`LunarDate`). -/
structure LunarDate where
  year : Int
  month : Int
  day : Int
  isLeapMonth : Bool
deriving DecidableEq, Repr

/-- Month-consuming loop of `solarToLunar` (the `for m = 1..12` loop):
given the remaining `offset` and the current month `m`, returns
`(lunarMonth, isLeapMonth, remaining offset)`.  `fuel` counts the
remaining iterations (12 at the top call, so `fuel = 13 - m`); when the
loop finishes without a hit the source falls back to month 12,
`isLeapMonth = false`, keeping the leftover offset. -/
def monthScan (year : Int) (leapMonth : Nat) :
    Nat → Nat → Nat → Nat × Bool × Nat
  | 0, _, offset => (12, false, offset)
  | fuel + 1, m, offset =>
    let days := getMonthDays year m
    if offset < days then (m, false, offset)
    else
      let offset := offset - days
      if leapMonth = m then
        let leapDays := getLeapMonthDays year
        if offset < leapDays then (m, true, offset)
        else monthScan year leapMonth fuel (m + 1) (offset - leapDays)
      else monthScan year leapMonth fuel (m + 1) offset

/-- Conversion of a civil date to a lunar date (`solarToLunar`); `none`
models a thrown error. -/
def solarToLunar (date : SolarDate) : Option LunarDate :=
  let solarYear := date.year
  let solarMonth := date.month
  let solarDay := date.day
  if solarYear < 1900 ∨ 2100 < solarYear then none
  else
    let inputDate := daysFromCivil (jsUTCYear solarYear) solarMonth solarDay
    let springFestival := getSpringFestivalDate solarYear
    let lunarYear := if springFestival ≤ inputDate then solarYear else solarYear - 1
    let yearSpringFestival := getSpringFestivalDate lunarYear
    let offset := daysBetween yearSpringFestival inputDate
    if offset < 0 then none
    else
      let leapMonth := getLeapMonthInternal lunarYear
      let r := monthScan lunarYear leapMonth 12 1 offset.toNat
      some ⟨lunarYear, (r.1 : Int), (r.2.2 : Int) + 1, r.2.1⟩

/-- Accumulation loop of `lunarToSolar` (`for m = 1; m < month; m++`):
total days of the first `k` lunar months of the year, the leap month
counted right after its ordinary month. -/
def sumFirstMonths (year : Int) (leapMonth : Nat) : Nat → Nat
  | 0 => 0
  | k + 1 =>
    sumFirstMonths year leapMonth k + getMonthDays year (k + 1)
      + (if leapMonth = k + 1 then getLeapMonthDays year else 0)

/-- Conversion of a lunar date to the day number of its civil date
(`lunarToSolar`); `none` models a thrown error. -/
def lunarToSolar (lunarDate : LunarDate) : Option Int :=
  let year := lunarDate.year
  let month := lunarDate.month
  let day := lunarDate.day
  let isLeapMonth := lunarDate.isLeapMonth
  if year < 1900 ∨ 2100 < year then none
  else if month < 1 ∨ 12 < month then none
  else if day < 1 ∨ 30 < day then none
  else
    let leapMonth := getLeapMonthInternal year
    if isLeapMonth ∧ (leapMonth : Int) ≠ month then none
    else
      let maxDays : Nat :=
        if isLeapMonth then getLeapMonthDays year else getMonthDays year month.toNat
      if (maxDays : Int) < day then none
      else
        let offset := sumFirstMonths year leapMonth (month.toNat - 1)
        let offset := if isLeapMonth then offset + getMonthDays year month.toNat else offset
        some (getSpringFestivalDate year + (offset : Int) + (day - 1))

/-! ## Year-pillar module (`yearPillar.ts`) -/

/-- Heavenly stems in order (`HEAVENLY_STEMS`). -/
def HEAVENLY_STEMS : List String :=
  ["甲", "乙", "丙", "丁", "戊", "己", "庚", "辛", "壬", "癸"]

/-- Earthly branches in order (`EARTHLY_BRANCHES`). -/
def EARTHLY_BRANCHES : List String :=
  ["子", "丑", "寅", "卯", "辰", "巳", "午", "未", "申", "酉", "戌", "亥"]

/-- Stem/branch pair (`Pillar`). -/
structure Pillar where
  stem : String
  branch : String
deriving DecidableEq, Repr

/-- Index of Start-of-Spring in the solar-term order (`LICHUN_INDEX`). -/
def LICHUN_INDEX : Int := 2

/-- Stem index computed by `getYearPillar`: the source writes
`((year - 4) % 10 + 10) % 10` with JavaScript's truncating `%`. -/
def yearStemIndex (year : Int) : Int :=
  ((year - 4).tmod 10 + 10).tmod 10

/-- Branch index computed by `getYearPillar`:
`((year - 4) % 12 + 12) % 12` with JavaScript's truncating `%`. -/
def yearBranchIndex (year : Int) : Int :=
  ((year - 4).tmod 12 + 12).tmod 12

/-- Year pillar of a (effective) year (`getYearPillar`). -/
def getYearPillar (year : Int) : Pillar :=
  ⟨HEAVENLY_STEMS.getD (yearStemIndex year).toNat "",
   EARTHLY_BRANCHES.getD (yearBranchIndex year).toNat ""⟩

/-- Solar term record (`SolarTerm`); `moment` is the millisecond
timestamp of the `Date`. -/
structure SolarTerm where
  name : String
  index : Int
  moment : Int
  longitude : Int
deriving DecidableEq, Repr

/-- Scan for the Start-of-Spring moment of a given year
(`findLichunMoment`); the source's `for ... of` loop returns the first
term with index 2 whose moment falls in `year`. -/
def findLichunMoment (solarTerms : List SolarTerm) (year : Int) : Option Int :=
  match solarTerms with
  | [] => none
  | term :: rest =>
    if term.index = LICHUN_INDEX ∧ jsGetFullYear term.moment = year then
      some term.moment
    else findLichunMoment rest year

/-- Year-pillar derivation (`calculateYearPillar`); `none` models the
thrown error when no Start-of-Spring datum is found. -/
def calculateYearPillar (trueSolarTime : Int) (solarTerms : List SolarTerm) :
    Option Pillar :=
  let year := jsGetFullYear trueSolarTime
  match findLichunMoment solarTerms year with
  | none => none
  | some lichunMoment =>
    let effectiveYear := if lichunMoment ≤ trueSolarTime then year else year - 1
    some (getYearPillar effectiveYear)

/-! ## DST module (`dst.ts`) -/

/-- DST window entry (`DSTEntry`); `start`/`stop` are the millisecond
timestamps of the window bounds (the source field `end` is a Lean keyword
and is embedded as `stop`). -/
structure DSTEntry where
  year : Int
  start : Int
  stop : Int
deriving DecidableEq, Repr

/-- Chinese DST windows 1986–1991 (`DST_TABLE`), bounds built exactly as
the source's `Date.UTC` calls. -/
def DST_TABLE : List DSTEntry := [
  ⟨1986, jsDateUTC 1986 4 4 2 0 0 0, jsDateUTC 1986 8 14 2 0 0 0⟩,
  ⟨1987, jsDateUTC 1987 3 12 2 0 0 0, jsDateUTC 1987 8 13 2 0 0 0⟩,
  ⟨1988, jsDateUTC 1988 3 10 2 0 0 0, jsDateUTC 1988 8 11 2 0 0 0⟩,
  ⟨1989, jsDateUTC 1989 3 16 2 0 0 0, jsDateUTC 1989 8 17 2 0 0 0⟩,
  ⟨1990, jsDateUTC 1990 3 15 2 0 0 0, jsDateUTC 1990 8 16 2 0 0 0⟩,
  ⟨1991, jsDateUTC 1991 3 14 2 0 0 0, jsDateUTC 1991 8 15 2 0 0 0⟩]

/-- DST membership test (`isDSTActive`): year guard, table lookup by
year, then the left-closed right-open interval test. -/
def isDSTActive (date : Int) : Bool :=
  let year := jsGetFullYear date
  if year < 1986 ∨ 1991 < year then false
  else
    match DST_TABLE.find? (fun e => e.year == year) with
    | none => false
    | some entry => decide (entry.start ≤ date ∧ date < entry.stop)

/-- DST correction (`applyDSTCorrection`): subtract one hour exactly when
the user confirmed DST and the instant is in a window. -/
def applyDSTCorrection (date : Int) (userConfirmedDST : Bool) : Int :=
  if userConfirmedDST ∧ isDSTActive date then date - 60 * 60 * 1000 else date

/-! ## True-solar-time module (`trueSolarTime.ts`)

The arithmetic of this module is floating point in the source; it is
embedded over `ℚ` (exact arithmetic), with the equation-of-time function —
whose body calls `Math.sin`/`Math.cos` — passed as a parameter
`calculateEoT : Int → ℚ` to `calculateTrueSolarTime`, and separately
idealised over `ℝ` (`calculateEoT` below) where the claim is about the
sine values themselves.  A `Date` is a (possibly fractional) millisecond
timestamp `ℚ`. -/

/-- ECMA `Day(t)`: day number holding the millisecond instant `t`
(`Math.floor` on the fractional day count). -/
def jsDay (t : ℚ) : Int := (t / 86400000).floor

/-- Day-of-year 1..366 of an instant (`getDayOfYear`): the source reads
the UTC calendar fields and rebuilds `Date.UTC(year, 0, 1)` and
`Date.UTC(year, month, date)` (simplifications of the two-digit-year quirk
included via `jsDateUTC`). -/
def getDayOfYear (date : ℚ) : Int :=
  let dnum := jsDay date
  let c := civilFromDays dnum
  let year := c.1
  let start := jsDateUTC year 0 1 0 0 0 0
  let current := jsDateUTC year (c.2.1 - 1) c.2.2 0 0 0 0
  (current - start) / 86400000 + 1

/-- Result record of the true-solar-time reduction
(`TrueSolarTimeResult`). -/
structure TrueSolarTimeResult where
  originalTime : ℚ
  trueSolarTime : ℚ
  longitudeDiff : ℚ
  eotCorrection : ℚ
deriving DecidableEq, Repr

/-- True-solar-time reduction (`calculateTrueSolarTime`); the
equation-of-time function is a parameter (see module comment). -/
def calculateTrueSolarTime (calculateEoT : Int → ℚ) (standardTime : ℚ)
    (longitude : ℚ) : TrueSolarTimeResult :=
  let longitudeDiff := (longitude - 120) * 4
  let dayOfYear := getDayOfYear standardTime
  let eotCorrection := calculateEoT dayOfYear
  let totalCorrectionMs := (longitudeDiff + eotCorrection) * 60 * 1000
  let trueSolarTime := standardTime + totalCorrectionMs
  ⟨standardTime, trueSolarTime, longitudeDiff, eotCorrection⟩

/-- Equation of time in minutes (`calculateEoT`), idealised over `ℝ`
with the exact sine and cosine. -/
noncomputable def calculateEoT (dayOfYear : ℝ) : ℝ :=
  let B := ((360 / 365.25) * (dayOfYear - 81)) * (Real.pi / 180)
  9.87 * Real.sin (2 * B) - 7.53 * Real.cos B - 1.5 * Real.sin B

/-! ## Solar-term module (`solarTerms.ts`)

The astronomical pipeline is floating point in the source; it is embedded
over `ℚ` with `Math.sin`, `Math.cos` and the constant `Math.PI` supplied
as a parameter record `JsMath` (exact rational arithmetic replaces IEEE
rounding; the claim settled against this module concerns only its
control flow, which performs no arithmetic-dependent branching before the
index guard).  Division by zero in `ℚ` is total (yields 0) just as the
corresponding JavaScript expression yields an infinity that is never
branched on. -/

/-- Parameter record standing for the JavaScript math intrinsics used by
this module. -/
structure JsMath where
  sin : ℚ → ℚ
  cos : ℚ → ℚ
  pi : ℚ

/-- Solar-term names in order from Minor Cold (`SOLAR_TERM_NAMES`). -/
def SOLAR_TERM_NAMES : List String := [
  "小寒", "大寒", "立春", "雨水", "惊蛰", "春分",
  "清明", "谷雨", "立夏", "小满", "芒种", "夏至",
  "小暑", "大暑", "立秋", "处暑", "白露", "秋分",
  "寒露", "霜降", "立冬", "小雪", "大雪", "冬至"]

/-- Target apparent solar longitudes of the 24 terms
(`SOLAR_TERM_LONGITUDES`). -/
def SOLAR_TERM_LONGITUDES : List ℚ := [
  285, 300, 315, 330, 345, 0,
  15, 30, 45, 60, 75, 90,
  105, 120, 135, 150, 165, 180,
  195, 210, 225, 240, 255, 270]

/-- Degrees to radians (`toRad`). -/
def toRad (jm : JsMath) (deg : ℚ) : ℚ := deg * jm.pi / 180

/-- Truncation towards zero on `ℚ` (the rounding JavaScript's `%`
performs on its quotient). -/
def ratTrunc (q : ℚ) : Int := if q < 0 then -((-q).floor) else q.floor

/-- JavaScript's `%` on numbers (sign of the dividend). -/
def jsFmod (a b : ℚ) : ℚ := a - b * (ratTrunc (a / b) : ℚ)

/-- Normalisation of an angle to `[0, 360)` (`mod360`). -/
def mod360 (deg : ℚ) : ℚ :=
  let r := jsFmod deg 360
  if r < 0 then r + 360 else r

/-- UTC calendar fields of a `Date` as read by `dateToJD`
(`month` is the 0-based `getUTCMonth()` value). -/
structure JsDateFields where
  year : Int
  month : Int
  day : Int
  hour : Int
  minute : Int
  second : Int
  ms : Int

/-- Gregorian date to Julian day (`dateToJD`, Meeus ch. 7). -/
def dateToJD (date : JsDateFields) : ℚ :=
  let y0 := date.year
  let m0 := date.month + 1
  let d : ℚ := (date.day : ℚ) + (date.hour : ℚ) / 24 + (date.minute : ℚ) / 1440
    + (date.second : ℚ) / 86400 + (date.ms : ℚ) / 86400000
  let y := if m0 ≤ 2 then y0 - 1 else y0
  let m := if m0 ≤ 2 then m0 + 12 else m0
  let A := y / 100
  let B := 2 - A + A / 4
  (((365.25 : ℚ) * ((y : ℚ) + 4716)).floor : ℚ)
    + (((30.6001 : ℚ) * ((m : ℚ) + 1)).floor : ℚ)
    + d + (B : ℚ) - 1524.5

/-- Julian day to the millisecond timestamp of the UTC `Date`
(`jdToDate`; the trailing `Math.round` is `⌊x + 0.5⌋`). -/
def jdToDate (jd : ℚ) : Int :=
  let z := (jd + 0.5).floor
  let f := jd + 0.5 - (z : ℚ)
  let A := if z < 2299161 then z
    else
      let alpha := (((z : ℚ) - 1867216.25) / 36524.25).floor
      z + 1 + alpha - alpha / 4
  let B := A + 1524
  let C := (((B : ℚ) - 122.1) / 365.25).floor
  let D := ((365.25 : ℚ) * (C : ℚ)).floor
  let E := (((B : ℚ) - (D : ℚ)) / 30.6001).floor
  let day : ℚ := (B : ℚ) - (D : ℚ) - (((30.6001 : ℚ) * (E : ℚ)).floor : ℚ) + f
  let month := if E < 14 then E - 1 else E - 13
  let year := if month > 2 then C - 4716 else C - 4715
  let dayInt := day.floor
  let dayFrac := day - (dayInt : ℚ)
  let hours := dayFrac * 24
  let hourInt := hours.floor
  let minutes := (hours - (hourInt : ℚ)) * 60
  let minuteInt := minutes.floor
  let seconds := (minutes - (minuteInt : ℚ)) * 60
  let secondInt := seconds.floor
  let ms := ((seconds - (secondInt : ℚ)) * 1000 + 0.5).floor
  jsDateUTC year (month - 1) dayInt hourInt minuteInt secondInt ms
/-- VSOP87 reduced series for the Earth, copied bit-exactly from the
source (`EARTH_L0` .. `EARTH_R2`): triples `(A, B, C)` summed as
`A·cos(B + C·τ)`. -/
def EARTH_L0 : List (ℚ × ℚ × ℚ) := [
  (175347046, 0, 0),
  (3341656, 4.6692568, 6283.07585),
  (34894, 4.6261, 12566.1517),
  (3497, 2.7441, 5753.3849),
  (3418, 2.8289, 3.5232),
  (3136, 3.6277, 77713.7715),
  (2676, 4.4181, 7860.4194),
  (2343, 6.1352, 3930.2097),
  (1324, 0.7425, 11506.7698),
  (1273, 2.0371, 529.691),
  (1199, 1.1096, 1577.3435),
  (990, 5.233, 5884.927),
  (902, 2.045, 26.298),
  (857, 3.508, 398.149),
  (780, 1.179, 5223.694),
  (753, 2.533, 5507.553),
  (505, 4.583, 18849.228),
  (492, 4.205, 775.523),
  (357, 2.92, 0.067),
  (317, 5.849, 11790.629),
  (284, 1.899, 796.298),
  (271, 0.315, 10977.079),
  (243, 0.345, 5486.778),
  (206, 4.806, 2544.314),
  (205, 1.869, 5573.143),
  (202, 2.458, 6069.777),
  (156, 0.833, 213.299),
  (132, 3.411, 2942.463),
  (126, 1.083, 20.775),
  (115, 0.645, 0.98),
  (103, 0.636, 4694.003),
  (99, 6.21, 2146.17),
  (98, 0.68, 155.42),
  (86, 5.98, 161000.69),
  (85, 1.3, 6275.96),
  (85, 3.67, 71430.7),
  (80, 1.81, 17260.15)]

def EARTH_L1 : List (ℚ × ℚ × ℚ) := [
  (628331966747, 0, 0),
  (206059, 2.678235, 6283.07585),
  (4303, 2.6351, 12566.1517),
  (425, 1.59, 3.523),
  (119, 5.796, 26.298),
  (109, 2.966, 1577.344),
  (93, 2.59, 18849.23),
  (72, 1.14, 529.69),
  (68, 1.87, 398.15),
  (67, 4.41, 5507.55),
  (59, 2.89, 5223.69),
  (56, 2.17, 155.42),
  (45, 0.4, 796.3),
  (36, 0.47, 775.52),
  (29, 2.65, 7.11),
  (21, 5.34, 0.98),
  (19, 1.85, 5486.78),
  (19, 4.97, 213.3),
  (17, 2.99, 6275.96),
  (16, 0.03, 2544.31),
  (16, 1.43, 2146.17),
  (15, 1.21, 10977.08),
  (12, 2.83, 1748.02),
  (12, 3.26, 5088.63),
  (12, 5.27, 1194.45),
  (12, 2.08, 4694),
  (11, 0.77, 553.57),
  (10, 1.3, 6286.6),
  (10, 4.24, 1349.87),
  (9, 2.7, 242.73),
  (9, 5.64, 951.72),
  (8, 5.3, 2352.87),
  (6, 2.65, 9437.76),
  (6, 4.67, 4690.48)]

def EARTH_L2 : List (ℚ × ℚ × ℚ) := [
  (52919, 0, 0),
  (8720, 1.0721, 6283.0758),
  (309, 0.867, 12566.152),
  (27, 0.05, 3.52),
  (16, 5.19, 26.3),
  (16, 3.68, 155.42),
  (10, 0.76, 18849.23),
  (9, 2.06, 77713.77),
  (7, 0.83, 775.52),
  (5, 4.66, 1577.34),
  (4, 1.03, 7.11),
  (4, 3.44, 5573.14),
  (3, 5.14, 796.3),
  (3, 6.05, 5507.55),
  (3, 1.19, 242.73),
  (3, 6.12, 529.69),
  (3, 0.31, 398.15),
  (3, 2.28, 553.57),
  (2, 4.38, 5223.69),
  (2, 3.75, 0.98)]

def EARTH_L3 : List (ℚ × ℚ × ℚ) := [
  (289, 5.844, 6283.076),
  (35, 0, 0),
  (17, 5.49, 12566.15),
  (3, 5.2, 155.42),
  (1, 4.72, 3.52),
  (1, 5.3, 18849.23),
  (1, 5.97, 242.73)]

def EARTH_L4 : List (ℚ × ℚ × ℚ) := [
  (114, 3.142, 0),
  (8, 4.13, 6283.08),
  (1, 3.84, 12566.15)]

def EARTH_L5 : List (ℚ × ℚ × ℚ) := [
  (1, 3.14, 0)]

def EARTH_B0 : List (ℚ × ℚ × ℚ) := [
  (280, 3.199, 84334.662),
  (102, 5.422, 5507.553),
  (80, 3.88, 5223.69),
  (44, 3.7, 2352.87),
  (32, 4, 1577.34)]

def EARTH_B1 : List (ℚ × ℚ × ℚ) := [
  (9, 3.9, 5507.55),
  (6, 1.73, 5223.69)]

def EARTH_R0 : List (ℚ × ℚ × ℚ) := [
  (100013989, 0, 0),
  (1670700, 3.0984635, 6283.07585),
  (13956, 3.05525, 12566.1517),
  (3084, 5.1985, 77713.7715),
  (1628, 1.1739, 5753.3849),
  (1576, 2.8469, 7860.4194),
  (925, 5.453, 11506.77),
  (542, 4.564, 3930.21),
  (472, 3.661, 5884.927),
  (346, 0.964, 5507.553),
  (329, 5.9, 5223.694),
  (307, 0.299, 5573.143),
  (243, 4.273, 11790.629),
  (212, 5.847, 1577.344),
  (186, 5.022, 10977.079),
  (175, 3.012, 18849.228),
  (110, 5.055, 5486.778),
  (98, 0.89, 6069.78),
  (86, 5.69, 15720.84),
  (86, 1.27, 161000.69),
  (65, 0.27, 17260.15),
  (63, 0.92, 529.69),
  (57, 2.01, 83996.85),
  (56, 5.24, 71430.7),
  (49, 3.25, 2544.31),
  (47, 2.58, 775.52),
  (45, 5.54, 9437.76),
  (43, 6.01, 6275.96),
  (39, 5.36, 4694),
  (38, 2.39, 8827.39),
  (37, 0.83, 19651.05),
  (37, 4.9, 12139.55),
  (36, 1.67, 12036.46),
  (35, 1.84, 2942.46),
  (33, 0.24, 7084.9),
  (32, 0.18, 5088.63),
  (32, 1.78, 398.15),
  (28, 1.21, 6286.6),
  (28, 1.9, 6279.55),
  (26, 4.59, 10447.39)]

def EARTH_R1 : List (ℚ × ℚ × ℚ) := [
  (103019, 1.10749, 6283.07585),
  (1721, 1.0644, 12566.1517),
  (702, 3.142, 0),
  (32, 1.02, 18849.23),
  (31, 2.84, 5507.55),
  (25, 1.32, 5223.69),
  (18, 1.42, 1577.34),
  (10, 5.91, 10977.08),
  (9, 1.42, 6275.96),
  (9, 0.27, 5486.78)]

def EARTH_R2 : List (ℚ × ℚ × ℚ) := [
  (4359, 5.7846, 6283.0758),
  (124, 5.579, 12566.152),
  (12, 3.14, 0),
  (9, 3.63, 77713.77),
  (6, 1.87, 5573.14),
  (3, 5.47, 18849.23)]

/-- IAU-1980 nutation table (`NUTATION_TABLE`), 63 rows of 9 values,
copied bit-exactly from the source. -/
def NUTATION_TABLE : List (List ℚ) := [
  [0, 0, 0, 0, 1, -171996, -174.2, 92025, 8.9],
  [-2, 0, 0, 2, 2, -13187, -1.6, 5736, -3.1],
  [0, 0, 0, 2, 2, -2274, -0.2, 977, -0.5],
  [0, 0, 0, 0, 2, 2062, 0.2, -895, 0.5],
  [0, 1, 0, 0, 0, 1426, -3.4, 54, -0.1],
  [0, 0, 1, 0, 0, 712, 0.1, -7, 0],
  [-2, 1, 0, 2, 2, -517, 1.2, 224, -0.6],
  [0, 0, 0, 2, 1, -386, -0.4, 200, 0],
  [0, 0, 1, 2, 2, -301, 0, 129, -0.1],
  [-2, -1, 0, 2, 2, 217, -0.5, -95, 0.3],
  [-2, 0, 1, 0, 0, -158, 0, 0, 0],
  [-2, 0, 0, 2, 1, 129, 0.1, -70, 0],
  [0, 0, -1, 2, 2, 123, 0, -53, 0],
  [2, 0, 0, 0, 0, 63, 0, 0, 0],
  [0, 0, 1, 0, 1, 63, 0.1, -33, 0],
  [2, 0, -1, 2, 2, -59, 0, 26, 0],
  [0, 0, -1, 0, 1, -58, -0.1, 32, 0],
  [0, 0, 1, 2, 1, -51, 0, 27, 0],
  [-2, 0, 2, 0, 0, 48, 0, 0, 0],
  [0, 0, -2, 2, 1, 46, 0, -24, 0],
  [2, 0, 0, 2, 2, -38, 0, 16, 0],
  [0, 0, 2, 2, 2, -31, 0, 13, 0],
  [0, 0, 2, 0, 0, 29, 0, 0, 0],
  [-2, 0, 1, 2, 2, 29, 0, -12, 0],
  [0, 0, 0, 2, 0, 26, 0, 0, 0],
  [-2, 0, 0, 2, 0, -22, 0, 0, 0],
  [0, 0, -1, 2, 1, 21, 0, -10, 0],
  [0, 2, 0, 0, 0, 17, -0.1, 0, 0],
  [2, 0, -1, 0, 1, 16, 0, -8, 0],
  [-2, 2, 0, 2, 2, -16, 0.1, 7, 0],
  [0, 1, 0, 0, 1, -15, 0, 9, 0],
  [-2, 0, 1, 0, 1, -13, 0, 7, 0],
  [0, -1, 0, 0, 1, -12, 0, 6, 0],
  [0, 0, 2, -2, 0, 11, 0, 0, 0],
  [2, 0, -1, 2, 1, -10, 0, 5, 0],
  [2, 0, 1, 2, 2, -8, 0, 3, 0],
  [0, 1, 0, 2, 2, 7, 0, -3, 0],
  [-2, 1, 1, 0, 0, -7, 0, 0, 0],
  [0, -1, 0, 2, 2, -7, 0, 3, 0],
  [2, 0, 0, 2, 1, -7, 0, 3, 0],
  [2, 0, 1, 0, 0, -8, 0, 0, 0],
  [-2, 0, 2, 2, 2, 6, 0, -3, 0],
  [-2, 0, 1, 2, 1, 6, 0, -3, 0],
  [2, 0, -2, 0, 1, -6, 0, 3, 0],
  [2, 0, 0, 0, 1, -6, 0, 3, 0],
  [0, -1, 1, 0, 0, 5, 0, 0, 0],
  [-2, -1, 0, 2, 1, -5, 0, 3, 0],
  [-2, 0, 0, 0, 1, -5, 0, 3, 0],
  [0, 0, 2, 2, 1, -5, 0, 3, 0],
  [-2, 0, 2, 0, 1, 4, 0, 0, 0],
  [-2, 1, 0, 2, 1, 4, 0, 0, 0],
  [0, 0, 1, -2, 0, 4, 0, 0, 0],
  [-1, 0, 1, 0, 0, -4, 0, 0, 0],
  [-2, 1, 0, 0, 0, -4, 0, 0, 0],
  [1, 0, 0, 0, 0, -4, 0, 0, 0],
  [0, 0, 1, 2, 0, 3, 0, 0, 0],
  [0, 0, -2, 2, 2, -3, 0, 0, 0],
  [-1, -1, 1, 0, 0, -3, 0, 0, 0],
  [0, 1, 1, 0, 0, -3, 0, 0, 0],
  [0, -1, 1, 2, 2, -3, 0, 0, 0],
  [2, -1, -1, 2, 2, -3, 0, 0, 0],
  [0, 0, 3, 2, 2, -3, 0, 0, 0],
  [2, -1, 0, 2, 2, -3, 0, 0, 0]]
/-- Series summation `Σ A·cos(B + C·t)` (`vsopSum`), in table order. -/
def vsopSum (jm : JsMath) (terms : List (ℚ × ℚ × ℚ)) (t : ℚ) : ℚ :=
  terms.foldl (fun sum row => sum + row.1 * jm.cos (row.2.1 + row.2.2 * t)) 0

/-- Earth heliocentric longitude (`earthHeliocentricLongitude`),
radians, `τ` in Julian millennia. -/
def earthHeliocentricLongitude (jm : JsMath) (tau : ℚ) : ℚ :=
  let L0 := vsopSum jm EARTH_L0 tau
  let L1 := vsopSum jm EARTH_L1 tau
  let L2 := vsopSum jm EARTH_L2 tau
  let L3 := vsopSum jm EARTH_L3 tau
  let L4 := vsopSum jm EARTH_L4 tau
  let L5 := vsopSum jm EARTH_L5 tau
  (L0 + L1 * tau + L2 * tau * tau + L3 * tau ^ 3 + L4 * tau ^ 4 + L5 * tau ^ 5) / 1e8

/-- Earth heliocentric latitude (`earthHeliocentricLatitude`). -/
def earthHeliocentricLatitude (jm : JsMath) (tau : ℚ) : ℚ :=
  let B0 := vsopSum jm EARTH_B0 tau
  let B1 := vsopSum jm EARTH_B1 tau
  (B0 + B1 * tau) / 1e8

/-- Earth radius vector in AU (`earthRadius`). -/
def earthRadius (jm : JsMath) (tau : ℚ) : ℚ :=
  let R0 := vsopSum jm EARTH_R0 tau
  let R1 := vsopSum jm EARTH_R1 tau
  let R2 := vsopSum jm EARTH_R2 tau
  (R0 + R1 * tau + R2 * tau * tau) / 1e8

/-- Nutation in longitude and obliquity, arcseconds
(`nutationHighPrecision`; the solar mean anomaly `M` of the source is
written `Mm` to avoid clashing with the parameter record). -/
def nutationHighPrecision (jm : JsMath) (T : ℚ) : ℚ × ℚ :=
  let D := mod360 (297.85036 + 445267.11148 * T - 0.0019142 * T * T + T * T * T / 189474)
  let Mm := mod360 (357.52772 + 35999.05034 * T - 0.0001603 * T * T - T * T * T / 300000)
  let Mp := mod360 (134.96298 + 477198.867398 * T + 0.0086972 * T * T + T * T * T / 56250)
  let F := mod360 (93.27191 + 483202.017538 * T - 0.0036825 * T * T + T * T * T / 327270)
  let omega := mod360 (125.04452 - 1934.136261 * T + 0.0020708 * T * T + T * T * T / 450000)
  let p := NUTATION_TABLE.foldl (fun acc row =>
    let arg := toRad jm (row.getD 0 0 * D + row.getD 1 0 * Mm + row.getD 2 0 * Mp
      + row.getD 3 0 * F + row.getD 4 0 * omega)
    (acc.1 + (row.getD 5 0 + row.getD 6 0 * T) * jm.sin arg,
     acc.2 + (row.getD 7 0 + row.getD 8 0 * T) * jm.cos arg)) ((0 : ℚ), (0 : ℚ))
  (p.1 / 10000, p.2 / 10000)

/-- Apparent solar longitude in degrees (`sunApparentLongitude`); the
two `void`-ed latitude expressions of the source are kept as unused
bindings. -/
def sunApparentLongitude (jm : JsMath) (jd : ℚ) : ℚ :=
  let T := (jd - 2451545.0) / 36525.0
  let tau := T / 10
  let L := earthHeliocentricLongitude jm tau
  let B := earthHeliocentricLatitude jm tau
  let R := earthRadius jm tau
  let theta0 := L * 180 / jm.pi + 180
  let theta1 := mod360 theta0
  let _beta := -B * 180 / jm.pi
  let Lp := theta1 - 1.397 * T - 0.00031 * T * T
  let deltaTheta := (-0.09033 : ℚ) / 3600
  let _deltaBeta := ((0.03916 : ℚ) / 3600) * (jm.cos (toRad jm Lp) - jm.sin (toRad jm Lp))
  let theta2 := theta1 + deltaTheta
  let aberration := (-20.4898 : ℚ) / 3600 / R
  let deltaPsi := (nutationHighPrecision jm T).1
  let apparent := theta2 + deltaPsi / 3600 + aberration
  mod360 apparent

/-- ΔT in seconds (`deltaT`), piecewise polynomial. -/
def deltaT (year : ℚ) : ℚ :=
  let t := year - 2000
  if year < 1900 then
    let u := (year - 1820) / 100;
    -20 + 32 * u * u
  else if year < 1920 then
    let t1 := year - 1900
    3.21 + 0.5547 * t1 - 0.0748 * t1 * t1
  else if year < 1941 then
    let t1 := year - 1920
    24.02 + 1.3066 * t1 - 0.0598 * t1 * t1
  else if year < 1961 then
    let t1 := year - 1950
    29.07 + 0.407 * t1 - t1 * t1 / 233 + t1 * t1 * t1 / 2547
  else if year < 1986 then
    let t1 := year - 1975
    45.45 + 1.067 * t1 - t1 * t1 / 260 - t1 * t1 * t1 / 718
  else if year < 2005 then
    let t1 := year - 2000
    63.86 + 0.3345 * t1 - 0.060374 * t1 * t1 + 0.0017275 * t1 * t1 * t1
      + 0.000651814 * t1 * t1 * t1 * t1 + 0.00002373599 * t1 * t1 * t1 * t1 * t1
  else if year < 2050 then
    62.92 + 0.32217 * t + 0.005589 * t * t
  else if year < 2150 then
    -20 + 32 * ((year - 1820) / 100) ^ 2 - 0.5628 * (2150 - year)
  else
    let u := (year - 1820) / 100;
    -20 + 32 * u * u

/-- Initial Julian-day estimate for a term (`estimateSolarTermJDE`;
the source computes `k` and voids it). -/
def estimateSolarTermJDE (year termIndex : Int) : ℚ :=
  let k := (year : ℚ) + ((termIndex : ℚ) * 15.2184 + 3) / 365.25
  let _ := k
  let baseJD := dateToJD ⟨jsUTCYear year, 0, 1, 0, 0, 0, 0⟩
  let daysPerTerm := (365.25 : ℚ) / 24
  baseJD + 5 + (termIndex : ℚ) * daysPerTerm

/-- Newton-style iteration for the instant where the apparent solar
longitude reaches the target (`findSolarTermJDE`); the source's
`for (i = 0; i < 50; i++)` loop becomes structural recursion on the
remaining iteration count, called with 50. -/
def findSolarTermJDE (jm : JsMath) (targetLon : ℚ) : Nat → ℚ → ℚ
  | 0, jd => jd
  | fuel + 1, jd =>
    let lon := sunApparentLongitude jm jd
    let diff0 := targetLon - lon
    let diff1 := if diff0 > 180 then diff0 - 360 else diff0
    let diff := if diff1 < -180 then diff1 + 360 else diff1
    if |diff| < 0.00001 then jd
    else findSolarTermJDE jm targetLon fuel (jd + diff / 360 * 365.25)

/-- Exact moment of solar term `termIndex` of `year`
(`getSolarTermMoment`), as a Beijing-time millisecond timestamp; `none`
models the thrown error on an invalid term index. -/
def getSolarTermMoment (jm : JsMath) (year termIndex : Int) : Option Int :=
  if termIndex < 0 ∨ 23 < termIndex then none
  else
    let targetLon := SOLAR_TERM_LONGITUDES.getD termIndex.toNat 0
    let jd0 := estimateSolarTermJDE year termIndex
    let jde := findSolarTermJDE jm targetLon 50 jd0
    let yearFrac := (year : ℚ) + ((termIndex : ℚ) * 15.22) / 365.25
    let dt := deltaT yearFrac
    let jd := jde - dt / 86400
    let utcDate := jdToDate jd
    some (utcDate + 8 * 3600 * 1000)

/-! ## Sanity checks

Concrete evaluations of the embedded definitions, matching the
repository's own unit-test expectations and reference values. -/

example : daysFromCivil 1970 1 1 = 0 := by decide
example : daysFromCivil 1900 1 31 = -25537 := by decide
example : daysFromCivil 2100 12 31 = 47846 := by decide
example : civilFromDays (-25537) = (1900, 1, 31) := by decide
example : civilFromDays 47846 = (2100, 12, 31) := by decide

example : solarToLunar ⟨1900, 1, 31⟩ = some ⟨1900, 1, 1, false⟩ := by decide
example : solarToLunar ⟨2023, 3, 21⟩ = some ⟨2023, 2, 1, true⟩ := by decide
example : lunarToSolar ⟨2023, 2, 1, true⟩ = some (daysFromCivil 2023 3 21) := by decide
example : lunarToSolar ⟨2023, 1, 30, false⟩ = none := by decide

/-- JavaScript's normalising modulo pattern `((a % 10) + 10) % 10`
(truncating `%`) equals the standard positive modulo. -/
theorem tmod_norm_ten (a : Int) : (a.tmod 10 + 10).tmod 10 = a % 10 := by
  have h1 : a.tmod 10 = a - 10 * a.tdiv 10 := Int.tmod_def a 10
  have h2 : a.tmod 10 < 10 := Int.tmod_lt_of_pos a (by norm_num)
  have h3 : -10 < a.tmod 10 := by
    have h4 := Int.tmod_lt_of_pos (-a) (show (0:Int) < 10 by norm_num)
    have hn : (-a).tmod 10 = -(a.tmod 10) := by
      rw [Int.tmod_def, Int.tmod_def, Int.neg_tdiv]; ring
    omega
  rw [Int.tmod_eq_emod (by omega) (by norm_num)]
  omega

/-- JavaScript's normalising modulo pattern for modulus 12. -/
theorem tmod_norm_twelve (a : Int) : (a.tmod 12 + 12).tmod 12 = a % 12 := by
  have h1 : a.tmod 12 = a - 12 * a.tdiv 12 := Int.tmod_def a 12
  have h2 : a.tmod 12 < 12 := Int.tmod_lt_of_pos a (by norm_num)
  have h3 : -12 < a.tmod 12 := by
    have h4 := Int.tmod_lt_of_pos (-a) (show (0:Int) < 12 by norm_num)
    have hn : (-a).tmod 12 = -(a.tmod 12) := by
      rw [Int.tmod_def, Int.tmod_def, Int.neg_tdiv]; ring
    omega
  rw [Int.tmod_eq_emod (by omega) (by norm_num)]
  omega

/-- Stem index in standard positive-modulo form. -/
theorem yearStemIndex_eq (y : Int) : yearStemIndex y = (y - 4) % 10 :=
  tmod_norm_ten (y - 4)

/-- Branch index in standard positive-modulo form. -/
theorem yearBranchIndex_eq (y : Int) : yearBranchIndex y = (y - 4) % 12 :=
  tmod_norm_twelve (y - 4)

/-! ## Claim C1 — lunar round-trip -/

/-- Claim C1: the spec asserts that for every civil date in
[1900-01-01, 2100-12-31] (elsewhere [1900-01-31, 2100-12-31]),
`lunarToSolar (solarToLunar d)` is the same calendar date as `d`.  The
code violates this: the month lengths decoded from `LUNAR_INFO` disagree
with the `SPRING_FESTIVAL` table for many years, so for 1903-01-28 (the
last day of lunar year 1902, which is squarely inside both quoted ranges)
the scan falls off the end of the month loop, `solarToLunar` returns
lunar 1902-12-01, and `lunarToSolar` maps that back to civil 1902-12-29,
thirty days earlier.  This theorem evaluates the embedded code at that
failing input. -/
theorem lunar_roundtrip_fails_19030128 :
    solarToLunar ⟨1903, 1, 28⟩ = some ⟨1902, 12, 1, false⟩ ∧
    (solarToLunar ⟨1903, 1, 28⟩).bind lunarToSolar = some (daysFromCivil 1902 12 29) ∧
    daysFromCivil 1902 12 29 ≠ daysFromCivil 1903 1 28 := by
  refine ⟨by decide, by decide, by decide⟩

/-! ## Claim C2 — year-pillar boundary at Start-of-Spring -/

/-- Claim C2: when the term list yields the Start-of-Spring moment `m` of
the civil year `Y` of the instant `t`, `calculateYearPillar` uses
`effectiveYear = Y` iff `m ≤ t` (so exactly at Start-of-Spring the pillar
is that of `Y`, and one second — or any amount — before it, that of
`Y − 1`), and the returned pillar has stem index `(effectiveYear − 4) mod
10` and branch index `(effectiveYear − 4) mod 12` under standard positive
modulo. -/
theorem calculateYearPillar_boundary (t : Int) (terms : List SolarTerm) (m : Int)
    (h : findLichunMoment terms (jsGetFullYear t) = some m) :
    calculateYearPillar t terms =
      some ⟨HEAVENLY_STEMS.getD
              ((((if m ≤ t then jsGetFullYear t else jsGetFullYear t - 1) - 4) % 10).toNat) "",
            EARTHLY_BRANCHES.getD
              ((((if m ≤ t then jsGetFullYear t else jsGetFullYear t - 1) - 4) % 12).toNat) ""⟩ := by
  simp only [calculateYearPillar, h, getYearPillar, yearStemIndex_eq, yearBranchIndex_eq]

/-- Witness for C2 at the concrete instant `t = 0` (1970-01-01) with a
term list containing a Start-of-Spring datum at that exact moment:
`effectiveYear = 1970`, stem (1970−4) mod 10 = 6 (庚), branch
(1970−4) mod 12 = 10 (戌). -/
theorem calculateYearPillar_boundary_witness :
    calculateYearPillar 0 [⟨"立春", 2, 0, 315⟩] = some ⟨"庚", "戌"⟩ := by
  have h := calculateYearPillar_boundary 0 [⟨"立春", 2, 0, 315⟩] 0 (by decide)
  rw [h]
  decide

/-! ## Claim C9 — sexagenary parity constraint -/

/-- Claim C9: for every integer year, the stem index and branch index
produced by the year-pillar derivation have equal parity. -/
theorem yearPillar_sexagenary_parity (y : Int) :
    yearStemIndex y % 2 = yearBranchIndex y % 2 := by
  rw [yearStemIndex_eq, yearBranchIndex_eq]
  omega

/-- Helper: `findLichunMoment` returns `none` exactly when no listed term
is a Start-of-Spring of the requested year. -/
theorem findLichunMoment_eq_none (l : List SolarTerm) (y : Int) :
    findLichunMoment l y = none ↔
      ∀ term ∈ l, ¬(term.index = LICHUN_INDEX ∧ jsGetFullYear term.moment = y) := by
  induction l with
  | nil => simp [findLichunMoment]
  | cons a l ih =>
    simp only [findLichunMoment]
    split_ifs with h
    · simp [h]
    · rw [ih]
      simp only [List.mem_cons, forall_eq_or_imp]
      exact (and_iff_right h).symm

/-! ## Claim C10 — year-pillar failure condition -/

/-- Claim C10: `calculateYearPillar` fails exactly when the supplied term
list contains no term of index 2 (Start-of-Spring) whose moment falls in
the civil year of the input instant. -/
theorem calculateYearPillar_error_condition (t : Int) (terms : List SolarTerm) :
    calculateYearPillar t terms = none ↔
      ∀ term ∈ terms,
        ¬(term.index = LICHUN_INDEX ∧ jsGetFullYear term.moment = jsGetFullYear t) := by
  rw [← findLichunMoment_eq_none]
  simp only [calculateYearPillar]
  cases hf : findLichunMoment terms (jsGetFullYear t) <;> simp [hf]

/-! ## Claim C3 — lunarToSolar failure conditions -/

/-- Claim C3: for a lunar date with month in 1..12 and day in 1..30,
`lunarToSolar` fails exactly when the year is outside 1900..2100, or
`isLeapMonth` is set but the month is not that year's encoded leap month
(including years with no leap month), or the day exceeds the length of the
chosen (ordinary or leap) month as the code decodes it from the year
table; otherwise it returns a civil date. -/
theorem lunarToSolar_failure_conditions (l : LunarDate)
    (hm1 : 1 ≤ l.month) (hm2 : l.month ≤ 12)
    (hd1 : 1 ≤ l.day) (hd2 : l.day ≤ 30) :
    lunarToSolar l = none ↔
      (l.year < 1900 ∨ 2100 < l.year ∨
        (l.isLeapMonth = true ∧ (getLeapMonthInternal l.year : Int) ≠ l.month) ∨
        (((if l.isLeapMonth then getLeapMonthDays l.year
            else getMonthDays l.year l.month.toNat) : Nat) : Int) < l.day) := by
  obtain ⟨y, m, d, lp⟩ := l
  simp only at hm1 hm2 hd1 hd2
  simp only [lunarToSolar]
  cases lp <;> split_ifs <;> simp_all <;> omega

/-- Witness for C3: lunar 2023-02-15 (leap month) satisfies the
hypotheses, triggers none of the failure conditions, and converts. -/
theorem lunarToSolar_failure_conditions_witness :
    lunarToSolar ⟨2023, 2, 15, true⟩ ≠ none := by
  intro h
  have h2 := (lunarToSolar_failure_conditions ⟨2023, 2, 15, true⟩
    (by decide) (by decide) (by decide) (by decide)).mp h
  revert h2
  decide

/-! ## Claim C5 — true-solar-time reduction record -/

/-- Claim C5: for every standard-time instant `t` and longitude `lon`,
the record returned by `calculateTrueSolarTime` has `longitudeDiff =
(lon − 120) × 4` exactly, `originalTime = t` unchanged, `eotCorrection`
equal to the equation-of-time function applied to `t`'s day-of-year, and
`trueSolarTime = t + (longitudeDiff + eotCorrection) × 60` seconds
(60 000 ms per minute). -/
theorem calculateTrueSolarTime_spec (eot : Int → ℚ) (t lon : ℚ) :
    (calculateTrueSolarTime eot t lon).longitudeDiff = (lon - 120) * 4 ∧
    (calculateTrueSolarTime eot t lon).originalTime = t ∧
    (calculateTrueSolarTime eot t lon).eotCorrection = eot (getDayOfYear t) ∧
    (calculateTrueSolarTime eot t lon).trueSolarTime =
      t + ((calculateTrueSolarTime eot t lon).longitudeDiff
            + (calculateTrueSolarTime eot t lon).eotCorrection) * 60 * 1000 :=
  ⟨rfl, rfl, rfl, rfl⟩

/-- Helper: upper bound of `19.74·s·c − 7.53·c − 1.5·s` on the unit
circle (the form the equation of time takes after the double-angle
rewrite); certificate found by a rational LDL decomposition. -/
theorem eot_circle_upper (s c : ℝ) (h : s^2 + c^2 = 1) :
    19.74 * s * c - 7.53 * c - 1.5 * s ≤ 17 := by
  nlinarith [sq_nonneg (s - (987/1300)*c + 3/52), sq_nonneg (c + 563475/715831), h]

/-- Helper: lower bound on the unit circle. -/
theorem eot_circle_lower (s c : ℝ) (h : s^2 + c^2 = 1) :
    -15 ≤ 19.74 * s * c - 7.53 * c - 1.5 * s := by
  nlinarith [sq_nonneg (s + (329/400)*c - 1/16), sq_nonneg (c - 41975/51759), h]

/-! ## Claim C7 — equation-of-time bound -/

/-- Claim C7: for every day-of-year `d` in `[1, 366]`, `calculateEoT d`
lies in `[−15, +17]` minutes (the bound in fact holds for every real
`d`; the hypotheses mirror the claim's range). -/
theorem calculateEoT_bounded (d : ℝ) (_hd1 : 1 ≤ d) (_hd2 : d ≤ 366) :
    -15 ≤ calculateEoT d ∧ calculateEoT d ≤ 17 := by
  simp only [calculateEoT]
  rw [Real.sin_two_mul]
  constructor
  · have hc := eot_circle_lower (Real.sin (((360 / 365.25) * (d - 81)) * (Real.pi / 180)))
      (Real.cos (((360 / 365.25) * (d - 81)) * (Real.pi / 180)))
      (Real.sin_sq_add_cos_sq _)
    linarith
  · have hc := eot_circle_upper (Real.sin (((360 / 365.25) * (d - 81)) * (Real.pi / 180)))
      (Real.cos (((360 / 365.25) * (d - 81)) * (Real.pi / 180)))
      (Real.sin_sq_add_cos_sq _)
    linarith

/-- Witness for C7 at the concrete day-of-year 81 (where the angle `B`
is zero and the equation of time evaluates to −7.53 minutes). -/
theorem calculateEoT_bounded_witness :
    -15 ≤ calculateEoT 81 ∧ calculateEoT 81 ≤ 17 :=
  calculateEoT_bounded 81 (by norm_num) (by norm_num)

/-- Helper: a day range on which `civilFromDays` reports the constant
year `y` gives the constant `jsGetFullYear y` on the corresponding
millisecond range. -/
theorem jsGetFullYear_const_of_day_range (y lo : Int) (n : Nat)
    (h : ∀ k : Fin n, (civilFromDays (lo + ((k : Nat) : Int))).1 = y) :
    ∀ d : Int, lo * 86400000 ≤ d → d < (lo + (n : Int)) * 86400000 →
      jsGetFullYear d = y := by
  intro d h1 h2
  unfold jsGetFullYear
  have hz1 : lo ≤ d / 86400000 := by omega
  have hz2 : d / 86400000 < lo + (n : Int) := by omega
  have hk := h ⟨(d / 86400000 - lo).toNat, by omega⟩
  rwa [show lo + (((d / 86400000 - lo).toNat : Nat) : Int) = d / 86400000 by omega] at hk

set_option maxRecDepth 4000 in
/-- Helper: every instant inside a listed DST window falls in that
window's civil year. -/
theorem dst_entry_year :
    ∀ e ∈ DST_TABLE, ∀ d : Int, e.start ≤ d → d < e.stop →
      jsGetFullYear d = e.year := by
  intro e he d h1 h2
  fin_cases he <;> dsimp only at h1 h2 ⊢
  · have hs : jsDateUTC 1986 4 4 2 0 0 0 = 515556000000 := by decide
    have ht : jsDateUTC 1986 8 14 2 0 0 0 = 527047200000 := by decide
    exact jsGetFullYear_const_of_day_range 1986 5967 134 (by decide) d
      (by omega) (by omega)
  · have hs : jsDateUTC 1987 3 12 2 0 0 0 = 545191200000 := by decide
    have ht : jsDateUTC 1987 8 13 2 0 0 0 = 558496800000 := by decide
    exact jsGetFullYear_const_of_day_range 1987 6310 155 (by decide) d
      (by omega) (by omega)
  · have hs : jsDateUTC 1988 3 10 2 0 0 0 = 576640800000 := by decide
    have ht : jsDateUTC 1988 8 11 2 0 0 0 = 589946400000 := by decide
    exact jsGetFullYear_const_of_day_range 1988 6674 155 (by decide) d
      (by omega) (by omega)
  · have hs : jsDateUTC 1989 3 16 2 0 0 0 = 608695200000 := by decide
    have ht : jsDateUTC 1989 8 17 2 0 0 0 = 622000800000 := by decide
    exact jsGetFullYear_const_of_day_range 1989 7045 155 (by decide) d
      (by omega) (by omega)
  · have hs : jsDateUTC 1990 3 15 2 0 0 0 = 640144800000 := by decide
    have ht : jsDateUTC 1990 8 16 2 0 0 0 = 653450400000 := by decide
    exact jsGetFullYear_const_of_day_range 1990 7409 155 (by decide) d
      (by omega) (by omega)
  · have hs : jsDateUTC 1991 3 14 2 0 0 0 = 671594400000 := by decide
    have ht : jsDateUTC 1991 8 15 2 0 0 0 = 684900000000 := by decide
    exact jsGetFullYear_const_of_day_range 1991 7773 155 (by decide) d
      (by omega) (by omega)

/-- Helper: `isDSTActive` holds exactly when the instant lies in some
listed window (the matching of the table year is implied, since every
window lies inside its own civil year). -/
theorem isDSTActive_iff_window (d : Int) :
    isDSTActive d = true ↔ ∃ e ∈ DST_TABLE, e.start ≤ d ∧ d < e.stop := by
  constructor
  · intro h
    simp only [isDSTActive] at h
    split_ifs at h with hy
    cases hfind : DST_TABLE.find? (fun e => e.year == jsGetFullYear d) with
    | none => rw [hfind] at h; exact absurd h (by simp)
    | some entry =>
      rw [hfind] at h
      simp only [Bool.and_eq_true, decide_eq_true_eq] at h
      exact ⟨entry, List.mem_of_find?_eq_some hfind, h⟩
  · rintro ⟨e, he, h1, h2⟩
    have hy := dst_entry_year e he d h1 h2
    fin_cases he <;> dsimp only at h1 h2 hy <;>
      simp [isDSTActive, hy, DST_TABLE, List.find?, h1, h2]

/-- Helper: `isDSTActive` in the form quoted by the spec — the instant
lies in the `[start, stop)` interval of its own year's window. -/
theorem isDSTActive_iff_year (d : Int) :
    isDSTActive d = true ↔
      ∃ e ∈ DST_TABLE, e.year = jsGetFullYear d ∧ e.start ≤ d ∧ d < e.stop := by
  rw [isDSTActive_iff_window]
  constructor
  · rintro ⟨e, he, h1, h2⟩
    exact ⟨e, he, (dst_entry_year e he d h1 h2).symm, h1, h2⟩
  · rintro ⟨e, he, _, h1, h2⟩
    exact ⟨e, he, h1, h2⟩

/-! ## Claim C6 — DST semantics -/

/-- Claim C6: `applyDSTCorrection d c` returns `d` minus exactly
3 600 000 ms iff `c` is true and `d` lies in some DST window, and returns
`d` unchanged otherwise; and `isDSTActive d` is true iff `d` lies in the
left-closed right-open `[start, stop)` interval of its year's DST-table
window (table years 1986–1991). -/
theorem applyDSTCorrection_spec (d : Int) (c : Bool) :
    (applyDSTCorrection d c = d - 3600000 ↔
      (c = true ∧ ∃ e ∈ DST_TABLE, e.start ≤ d ∧ d < e.stop)) ∧
    (¬(c = true ∧ ∃ e ∈ DST_TABLE, e.start ≤ d ∧ d < e.stop) →
      applyDSTCorrection d c = d) ∧
    (isDSTActive d = true ↔
      ∃ e ∈ DST_TABLE, e.year = jsGetFullYear d ∧ e.start ≤ d ∧ d < e.stop) := by
  refine ⟨?_, ?_, isDSTActive_iff_year d⟩
  · unfold applyDSTCorrection
    split_ifs with hc
    · constructor
      · intro _
        exact ⟨hc.1, (isDSTActive_iff_window d).mp hc.2⟩
      · intro _
        norm_num
    · constructor
      · intro h
        omega
      · rintro ⟨h1, h2⟩
        exact absurd ⟨h1, (isDSTActive_iff_window d).mpr h2⟩ hc
  · intro h
    unfold applyDSTCorrection
    split_ifs with hc
    · exact absurd ⟨hc.1, (isDSTActive_iff_window d).mp hc.2⟩ h
    · rfl

/-! ## Claim C8 — solar-term moment failure condition -/

/-- Claim C8: `getSolarTermMoment` fails exactly when the term index is
outside `[0, 23]`; in particular it returns an instant for every integer
year — including years outside 1900–2100 — because no year-range
validation is performed (the statement is for every interpretation of the
math intrinsics, hence in particular for IEEE doubles). -/
theorem getSolarTermMoment_fails_iff (jm : JsMath) (year termIndex : Int) :
    getSolarTermMoment jm year termIndex = none ↔
      (termIndex < 0 ∨ 23 < termIndex) := by
  unfold getSolarTermMoment
  split_ifs with h
  · simp [h]
  · simp [h]
